import Mathlib

/-
Verification of the record-normalization and identifier-resolution pipeline of
`findthatcharity_import/spiders/schools_gias.py` (the `GIASSpider` class).

Python dictionaries of strings are embedded as association lists
`List (String × String)` with first-match lookup (`slookup`) and
overwrite-on-insert (`dictInsert`), matching Python `dict` semantics for the
operations the source uses.  The spider's mutable attributes (`self.unirc`,
`self.indschool`) become an explicit state record `SpiderState`; the two
callback loaders become state transformers.  Helpers that live in
`base_scraper.py` / `items.py` (not part of the sources under verification)
are either modelled from the specification (`get_org_id`, the error taxonomy)
or taken as opaque parameters (`clean_fields`, `parse_postcode`, `parse_url`,
the `AREA_TYPES` table).
-/

set_option autoImplicit false

/-- First-match lookup in an association list, the embedding of Python
`d.get(k)` / `d[k]` on a string-keyed dict. -/
def slookup (k : String) : List (String × String) → Option String
  | [] => none
  | p :: rest => if p.1 = k then some p.2 else slookup k rest

/-- Python truthiness of an optional string: `None` and `""` are falsy,
every other string is truthy. -/
def truthy : Option String → Bool
  | none => false
  | some s => s ≠ ""

/-- Embedding of Python `str.rjust(width, c)`: left-pad to `width` with `c`,
returning the string unchanged when it is already long enough. -/
def rjust (s : String) (width : Nat) (c : Char) : String :=
  String.mk (List.replicate (width - s.length) c) ++ s

/-- Insertion into an association list with Python `dict` assignment
semantics: an existing key is overwritten in place, a new key is appended. -/
def dictInsert (m : List (String × String)) (k v : String) : List (String × String) :=
  if m.any (fun p => p.1 = k) then
    m.map (fun p => if p.1 = k then (k, v) else p)
  else
    m ++ [(k, v)]

/-- A raw CSV row: a mapping from column name to string value
(`schools_gias.py` consumes these through `record.get`). -/
abbrev RawRow := List (String × String)

/-- The module-level `REGION_CONVERT` table of `schools_gias.py`
(lines 12-22): GOR single-letter region code to ONS region code. -/
def REGION_CONVERT : List (String × String) :=
  [("A", "E12000001"),
   ("B", "E12000002"),
   ("D", "E12000003"),
   ("E", "E12000004"),
   ("F", "E12000005"),
   ("G", "E12000006"),
   ("H", "E12000007"),
   ("J", "E12000008"),
   ("K", "E12000009")]

/-- Modelled from the spec: the error taxonomy (`MalformedRecord`) of the
error-handling design.  The sources under verification contain no exception
classes of their own. -/
inductive RowError where
  | MalformedRecord
deriving DecidableEq, Repr

/-- The mutable lookup state of the spider: `self.unirc` (university URN to
company number), `self.indschool["char"]` and `self.indschool["comp"]`
(independent-school URN to charity / company number). -/
structure SpiderState where
  unirc : List (String × String)
  indschoolChar : List (String × String)
  indschoolComp : List (String × String)
deriving DecidableEq, Repr

/-- One parsed row of the university royal-charter table consumed by
`uni_lookup` (columns `URN` and `CompanyNumber`). -/
structure UniRow where
  URN : String
  CompanyNumber : String
deriving DecidableEq, Repr

/-- One parsed row of the independent-school table consumed by
`independent_school_lookup` (columns `URN`, `charity_number`,
`company_number`). -/
structure IndRow where
  URN : String
  charity_number : String
  company_number : String
deriving DecidableEq, Repr

/-- `GIASSpider.uni_lookup` (lines 67-79): reset `self.unirc` to empty, then
insert `row["URN"] -> row["CompanyNumber"]` for every row of the table,
unconditionally. -/
def uni_lookup (rows : List UniRow) (s : SpiderState) : SpiderState :=
  { s with unirc := rows.foldl (fun m r => dictInsert m r.URN r.CompanyNumber) [] }

/-- `GIASSpider.independent_school_lookup` (lines 81-99): reset
`self.indschool` to two empty maps, then insert the charity number when
`row["charity_number"]` is truthy and, independently, the company number when
`row["company_number"]` is truthy. -/
def independent_school_lookup (rows : List IndRow) (s : SpiderState) : SpiderState :=
  let maps := rows.foldl
    (fun (m : List (String × String) × List (String × String)) r =>
      (if r.charity_number ≠ "" then dictInsert m.1 r.URN r.charity_number else m.1,
       if r.company_number ≠ "" then dictInsert m.2 r.URN r.company_number else m.2))
    ([], [])
  { s with indschoolChar := maps.1, indschoolComp := maps.2 }

/-- Modelled from the spec: `get_org_id` is defined in `base_scraper.py`,
which is not among the sources under verification.  Per the spec, the primary
identifier is the source prefix (`org_id_prefix = "GB-EDU"`) joined by a
hyphen to the row's `URN` field, and a row missing its `URN` field entirely
is a `MalformedRecord` error that aborts that row. -/
def get_org_id (record : RawRow) : Except RowError String :=
  match slookup "URN" record with
  | none => Except.error RowError.MalformedRecord
  | some urn => Except.ok ("GB-EDU-" ++ urn)

/-- `GIASSpider.get_org_ids` (lines 144-167): the primary identifier first,
then `GB-UKPRN-`, `GB-LAESTAB-`, `GB-COH-` (university table) and `GB-CHC-`
(independent-school charity table) appended under their respective guards.
The `GB-COH-` branch reading `self.indschool["comp"]` is commented out in the
source (lines 161-165) and therefore absent here. -/
def get_org_ids (s : SpiderState) (record : RawRow) : Except RowError (List String) :=
  match get_org_id record with
  | Except.error e => Except.error e
  | Except.ok primary =>
    let org_ids := [primary]
    let org_ids :=
      if truthy (slookup "UKPRN" record) then
        org_ids ++ ["GB-UKPRN-" ++ (slookup "UKPRN" record).getD ""]
      else org_ids
    let org_ids :=
      if truthy (slookup "EstablishmentNumber" record) && truthy (slookup "LA (code)" record) then
        org_ids ++ ["GB-LAESTAB-" ++ rjust ((slookup "LA (code)" record).getD "") 3 '0'
                      ++ "/" ++ rjust ((slookup "EstablishmentNumber" record).getD "") 4 '0']
      else org_ids
    let org_ids :=
      match (slookup "URN" record).bind (fun u => slookup u s.unirc) with
      | some c => org_ids ++ ["GB-COH-" ++ c]
      | none => org_ids
    let org_ids :=
      match (slookup "URN" record).bind (fun u => slookup u s.indschoolChar) with
      | some c => org_ids ++ ["GB-CHC-" ++ c]
      | none => org_ids
    Except.ok org_ids

/-- The class attribute `location_fields` (lines 58-59): the fixed ordered
list of seven geographic field groups. -/
def location_fields : List String :=
  ["GOR", "DistrictAdministrative", "AdministrativeWard",
   "ParliamentaryConstituency", "UrbanRural", "MSOA", "LSOA"]

/-- One location entry as built by `get_locations` (lines 184-189).  The
`name` field is `record.get(f + " (name)")` with no default, hence optional. -/
structure LocationEntry where
  id : String
  name : Option String
  geoCode : String
  geoCodeType : String
deriving DecidableEq, Repr

/-- The body of the `get_locations` loop for one field group `f`: `none`
when the group is skipped (`continue`), otherwise the entry appended.
`AREA_TYPES` is the prefix-to-label table imported from `items.py` (not
among the sources under verification), taken as a parameter. -/
def location_entry (AREA_TYPES : List (String × String)) (record : RawRow)
    (f : String) : Option LocationEntry :=
  let code := (slookup (f ++ " (code)") record).getD ""
  let name := (slookup (f ++ " (name)") record).getD ""
  if name = "" ∧ code = "" then none
  else
    let code := if f = "GOR" then (slookup code REGION_CONVERT).getD code else code
    let code := if code = "" then name else code
    some { id := code,
           name := slookup (f ++ " (name)") record,
           geoCode := code,
           geoCodeType := (slookup (code.take 3) AREA_TYPES).getD f }

/-- `GIASSpider.get_locations` (lines 169-191): iterate over
`location_fields`, skipping a group when both sub-columns are empty and
appending its entry otherwise. -/
def get_locations (AREA_TYPES : List (String × String)) (record : RawRow) :
    List LocationEntry :=
  location_fields.foldl
    (fun locations f =>
      match location_entry AREA_TYPES record f with
      | none => locations
      | some e => locations ++ [e])
    []

/-- The value of the loop variable `code` of `get_locations` after the
region-translation step (line 179): the raw `" (code)"` sub-column, sent
through `REGION_CONVERT` exactly when the field group is `GOR`. -/
def translated_code (record : RawRow) (f : String) : String :=
  let code := (slookup (f ++ " (code)") record).getD ""
  if f = "GOR" then (slookup code REGION_CONVERT).getD code else code

/-- The value of the loop variable `code` of `get_locations` after the
empty-code fallback (lines 181-182): the translated code, or the `" (name)"`
sub-column when the translated code is empty. -/
def final_code (record : RawRow) (f : String) : String :=
  if translated_code record f = "" then (slookup (f ++ " (name)") record).getD ""
  else translated_code record f

/-- The canonical output record built by `parse_row` (lines 113-142),
embedding the `Organisation` item of `items.py` as a plain record of the
fields `parse_row` fills in. -/
structure Organisation where
  id : String
  name : Option String
  charityNumber : Option String
  companyNumber : Option String
  streetAddress : Option String
  addressLocality : Option String
  addressRegion : Option String
  addressCountry : Option String
  postalCode : Option String
  telephone : Option String
  alternateName : List String
  email : Option String
  description : Option String
  organisationType : List (Option String)
  url : Option String
  location : List LocationEntry
  latestIncome : Option String
  dateModified : String
  dateRegistered : Option String
  dateRemoved : Option String
  active : Bool
  parent : Option String
  orgIDs : List String
  sources : List String

/-- Modelled from the spec: the collaborators `parse_row` delegates to that
live in `base_scraper.py` / the runtime (field cleaning, postcode and URL
parsing, the current timestamp) and the `AREA_TYPES` table from `items.py`.
The spec treats them as opaque pure collaborators, so they are parameters. -/
structure ExternalHelpers where
  clean_fields : RawRow → RawRow
  parse_postcode : Option String → Option String
  parse_url : Option String → Option String
  now : String
  area_types : List (String × String)

/-- `GIASSpider.parse_row` (lines 109-142): clean the record, then build the
`Organisation`.  The primary-identifier computation (`get_org_id`, also used
inside `get_org_ids`) is the only fallible step; its error aborts the row. -/
def parse_row (ext : ExternalHelpers) (s : SpiderState) (record0 : RawRow) :
    Except RowError Organisation :=
  let record := ext.clean_fields record0
  match get_org_id record, get_org_ids s record with
  | Except.error e, _ => Except.error e
  | _, Except.error e => Except.error e
  | Except.ok oid, Except.ok oids =>
    Except.ok
      { id := oid
        name := slookup "EstablishmentName" record
        charityNumber := none
        companyNumber := none
        streetAddress := slookup "Street" record
        addressLocality := slookup "Locality" record
        addressRegion := slookup "Address3" record
        addressCountry := slookup "Country (name)" record
        postalCode := ext.parse_postcode (slookup "Postcode" record)
        telephone := slookup "TelephoneNum" record
        alternateName := []
        email := none
        description := none
        organisationType := [some "Education",
          slookup "EstablishmentTypeGroup (name)" record,
          slookup "TypeOfEstablishment (name)" record]
        url := ext.parse_url (slookup "SchoolWebsite" record)
        location := get_locations ext.area_types record
        latestIncome := none
        dateModified := ext.now
        dateRegistered := slookup "OpenDate" record
        dateRemoved := slookup "CloseDate" record
        active := slookup "EstablishmentStatus (name)" record != some "Closed"
        parent := slookup "PropsName" record
        orgIDs := oids
        sources := ["gias"] }

/-- Modelled from the spec: the per-row loop of the batch (the CSV-driving
code of `base_scraper.py` is not among the sources under verification).  Per
the spec, rows are independent and a row-level error is isolated to its row. -/
def parse_batch (ext : ExternalHelpers) (s : SpiderState) (rows : List RawRow) :
    List (Except RowError Organisation) :=
  rows.map (parse_row ext s)

/-! ### Helper lemmas -/

theorem dictInsert_nil (k v : String) : dictInsert [] k v = [(k, v)] := rfl

theorem dictInsert_cons (p : String × String) (m : List (String × String)) (k v : String) :
    dictInsert (p :: m) k v =
      if p.1 = k then (k, v) :: m.map (fun q => if q.1 = k then (k, v) else q)
      else p :: dictInsert m k v := by
  by_cases h : p.1 = k
  · simp [dictInsert, h]
  · by_cases h2 : m.any (fun q => q.1 = k)
    · simp [dictInsert, h, h2]
    · simp [dictInsert, h, h2]

theorem slookup_dictInsert_self (m : List (String × String)) (k v : String) :
    slookup k (dictInsert m k v) = some v := by
  induction m with
  | nil => simp [dictInsert, slookup]
  | cons p m ih =>
    rw [dictInsert_cons]
    by_cases h : p.1 = k
    · simp [h, slookup]
    · simp [h, slookup, ih]

theorem slookup_map_overwrite_ne (m : List (String × String)) (k' k v : String)
    (h : k' ≠ k) :
    slookup k' (m.map (fun q => if q.1 = k then (k, v) else q)) = slookup k' m := by
  induction m with
  | nil => simp
  | cons q m ih =>
    by_cases hq : q.1 = k
    · have hkk : ¬k = k' := fun he => h he.symm
      have hqk : ¬q.1 = k' := by rw [hq]; exact hkk
      simp [slookup, hq, hkk, hqk, ih]
    · simp [slookup, hq, ih]

theorem slookup_dictInsert_ne (m : List (String × String)) (k' k v : String)
    (h : k' ≠ k) :
    slookup k' (dictInsert m k v) = slookup k' m := by
  induction m with
  | nil =>
    have hkk : ¬k = k' := fun he => h he.symm
    simp [dictInsert_nil, slookup, hkk]
  | cons p m ih =>
    rw [dictInsert_cons]
    by_cases hp : p.1 = k
    · have hkk : ¬k = k' := fun he => h he.symm
      simp [slookup, hp, hkk, slookup_map_overwrite_ne m k' k v h]
    · simp [slookup, hp, ih]

theorem slookup_dictInsert_isSome (m : List (String × String)) (k' k v : String)
    (h : (slookup k' m).isSome = true ∨ k' = k) :
    (slookup k' (dictInsert m k v)).isSome = true := by
  by_cases he : k' = k
  · subst he; simp [slookup_dictInsert_self]
  · rw [slookup_dictInsert_ne m k' k v he]
    rcases h with h | h
    · exact h
    · exact absurd h he

theorem uni_fold_contains (rows : List UniRow) :
    ∀ (init : List (String × String)) (r : UniRow),
      r ∈ rows ∨ (slookup r.URN init).isSome = true →
      (slookup r.URN
        (rows.foldl (fun m row => dictInsert m row.URN row.CompanyNumber) init)).isSome
        = true := by
  induction rows with
  | nil =>
    intro init r h
    rcases h with h | h
    · simp at h
    · simpa using h
  | cons a rows ih =>
    intro init r h
    rw [List.foldl_cons]
    apply ih
    rcases h with h | h
    · rcases List.mem_cons.mp h with h | h
      · subst h
        exact Or.inr (slookup_dictInsert_isSome _ _ _ _ (Or.inr rfl))
      · exact Or.inl h
    · exact Or.inr (slookup_dictInsert_isSome _ _ _ _ (Or.inl h))

theorem get_locations_go (A : List (String × String)) (record : RawRow)
    (l : List String) (acc : List LocationEntry) :
    l.foldl
      (fun locations f =>
        match location_entry A record f with
        | none => locations
        | some e => locations ++ [e]) acc
      = acc ++ l.filterMap (location_entry A record) := by
  induction l generalizing acc with
  | nil => simp
  | cons a l ih =>
    cases h : location_entry A record a <;>
      simp [List.filterMap_cons, h, ih]

theorem get_locations_eq (A : List (String × String)) (record : RawRow) :
    get_locations A record = location_fields.filterMap (location_entry A record) := by
  unfold get_locations
  rw [get_locations_go]
  rfl

theorem REGION_CONVERT_values_ne_empty (k v : String)
    (h : slookup k REGION_CONVERT = some v) : v ≠ "" := by
  simp only [REGION_CONVERT, slookup] at h
  split_ifs at h <;> injection h with h <;> subst h <;> decide

theorem get_org_ids_spec (s : SpiderState) (record : RawRow) (urn : String)
    (h : slookup "URN" record = some urn) :
    get_org_ids s record = Except.ok
      (["GB-EDU-" ++ urn]
        ++ (if truthy (slookup "UKPRN" record) then
              ["GB-UKPRN-" ++ (slookup "UKPRN" record).getD ""]
            else [])
        ++ (if truthy (slookup "EstablishmentNumber" record)
              && truthy (slookup "LA (code)" record) then
              ["GB-LAESTAB-" ++ rjust ((slookup "LA (code)" record).getD "") 3 '0'
                 ++ "/" ++ rjust ((slookup "EstablishmentNumber" record).getD "") 4 '0']
            else [])
        ++ (match slookup urn s.unirc with
            | some c => ["GB-COH-" ++ c]
            | none => [])
        ++ (match slookup urn s.indschoolChar with
            | some c => ["GB-CHC-" ++ c]
            | none => [])) := by
  simp only [get_org_ids, get_org_id, h, Option.bind]
  cases hC : slookup urn s.unirc <;>
    cases hch : slookup urn s.indschoolChar <;>
      cases hU : truthy (slookup "UKPRN" record) <;>
        cases hL : truthy (slookup "EstablishmentNumber" record)
            && truthy (slookup "LA (code)" record) <;>
          simp [hC, hch, hU, hL]

/-! ### Claim theorems -/

/-- C1: for every raw row whose `URN` field is present, the first element of
the `orgIDs` list produced by `get_org_ids` is the primary identifier
`"GB-EDU-" ++ URN`, regardless of every other field and of the lookup
state. -/
theorem orgIDs_primary_first (s : SpiderState) (record : RawRow) (urn : String)
    (h : slookup "URN" record = some urn) :
    ∃ l, get_org_ids s record = Except.ok l ∧ l.head? = some ("GB-EDU-" ++ urn) := by
  refine ⟨_, get_org_ids_spec s record urn h, ?_⟩
  simp

/-- Witness for C1 at a concrete row. -/
theorem orgIDs_primary_first_witness :
    ∃ l, get_org_ids ⟨[], [], []⟩ [("URN", "100000")] = Except.ok l ∧
      l.head? = some ("GB-EDU-" ++ "100000") :=
  orgIDs_primary_first ⟨[], [], []⟩ [("URN", "100000")] "100000" (by decide)

/-- C2: for every raw row whose `URN` field is present, `get_org_ids`
appends after the primary identifier, in this fixed order: the `GB-UKPRN-`
identifier iff the `UKPRN` field is truthy (non-empty), the `GB-LAESTAB-`
identifier iff both `LA (code)` and `EstablishmentNumber` are truthy (the
authority code left-zero-padded to width 3 and the establishment number to
width 4, joined by `/`), the `GB-COH-` identifier iff the URN is a key of
the university map, and the `GB-CHC-` identifier iff the URN is a key of the
independent-school charity map; a URN absent from both maps contributes no
company or charity identifier (the corresponding segments are empty). -/
theorem orgIDs_secondary_order (s : SpiderState) (record : RawRow) (urn : String)
    (h : slookup "URN" record = some urn) :
    get_org_ids s record = Except.ok
      (["GB-EDU-" ++ urn]
        ++ (if truthy (slookup "UKPRN" record) then
              ["GB-UKPRN-" ++ (slookup "UKPRN" record).getD ""]
            else [])
        ++ (if truthy (slookup "EstablishmentNumber" record)
              && truthy (slookup "LA (code)" record) then
              ["GB-LAESTAB-" ++ rjust ((slookup "LA (code)" record).getD "") 3 '0'
                 ++ "/" ++ rjust ((slookup "EstablishmentNumber" record).getD "") 4 '0']
            else [])
        ++ (match slookup urn s.unirc with
            | some c => ["GB-COH-" ++ c]
            | none => [])
        ++ (match slookup urn s.indschoolChar with
            | some c => ["GB-CHC-" ++ c]
            | none => [])) :=
  get_org_ids_spec s record urn h

/-- Witness for C2: the spec's end-to-end example, including the padding
example (authority code `"201"`, establishment number `"3001"`), evaluated. -/
theorem orgIDs_secondary_order_witness :
    get_org_ids ⟨[("100000", "OC123456")], [], []⟩
        [("URN", "100000"), ("UKPRN", "10012345"), ("LA (code)", "201"),
         ("EstablishmentNumber", "3001")]
      = Except.ok ["GB-EDU-100000", "GB-UKPRN-10012345", "GB-LAESTAB-201/3001",
                   "GB-COH-OC123456"] := by
  rw [orgIDs_secondary_order ⟨[("100000", "OC123456")], [], []⟩
        [("URN", "100000"), ("UKPRN", "10012345"), ("LA (code)", "201"),
         ("EstablishmentNumber", "3001")] "100000" (by decide)]
  rfl

/-- C7: `get_org_ids` never consults the independent-school company-number
map: its result is invariant under arbitrary changes of `indschoolComp`, and
in particular a row whose URN is a key of that map (and of no other map)
gets exactly the primary identifier. -/
theorem indschool_comp_never_used :
    (∀ (unirc char comp comp2 : List (String × String)) (record : RawRow),
        get_org_ids ⟨unirc, char, comp⟩ record = get_org_ids ⟨unirc, char, comp2⟩ record)
    ∧ get_org_ids ⟨[], [], [("100001", "C1")]⟩ [("URN", "100001")]
        = Except.ok ["GB-EDU-100001"] :=
  ⟨fun _ _ _ _ _ => rfl, by rfl⟩

/-- C8: running either loader a second time on the same parsed table text
leaves the spider state exactly as after the first run (each loader resets
its map before inserting, so nothing accumulates). -/
theorem lookup_loaders_idempotent (uniRows : List UniRow) (indRows : List IndRow)
    (s : SpiderState) :
    uni_lookup uniRows (uni_lookup uniRows s) = uni_lookup uniRows s
    ∧ independent_school_lookup indRows (independent_school_lookup indRows s)
        = independent_school_lookup indRows s := by
  cases s
  exact ⟨rfl, rfl⟩

theorem location_entry_eq (A : List (String × String)) (record : RawRow) (f : String) :
    location_entry A record f =
      if (slookup (f ++ " (name)") record).getD "" = ""
          ∧ (slookup (f ++ " (code)") record).getD "" = "" then none
      else some { id := final_code record f,
                  name := slookup (f ++ " (name)") record,
                  geoCode := final_code record f,
                  geoCodeType := (slookup ((final_code record f).take 3) A).getD f } :=
  rfl

theorem location_entry_some (A : List (String × String)) (record : RawRow)
    (f : String) (e : LocationEntry) (h : location_entry A record f = some e) :
    e = { id := final_code record f,
          name := slookup (f ++ " (name)") record,
          geoCode := final_code record f,
          geoCodeType := (slookup ((final_code record f).take 3) A).getD f }
    ∧ ¬((slookup (f ++ " (name)") record).getD "" = ""
        ∧ (slookup (f ++ " (code)") record).getD "" = "") := by
  rw [location_entry_eq] at h
  split_ifs at h with h1
  cases h
  exact ⟨rfl, h1⟩

/-- C3: in `get_locations`, the `GOR` field group's raw code is translated
through `REGION_CONVERT` before use and unknown codes pass through
unchanged, while every other field group's code is used untranslated; in
particular raw GOR code `"H"` yields `geoCode = "E12000007"` while the
unknown raw code `"Z"` yields `geoCode = "Z"`, and `REGION_CONVERT` has
exactly nine entries. -/
theorem gor_region_translation :
    (∀ (A : List (String × String)) (record : RawRow) (f code : String),
        f ∈ location_fields → slookup (f ++ " (code)") record = some code →
        code ≠ "" →
        (location_entry A record f).map LocationEntry.geoCode
          = some (if f = "GOR" then (slookup code REGION_CONVERT).getD code else code))
    ∧ REGION_CONVERT.length = 9
    ∧ (get_locations [] [("GOR (code)", "H"), ("GOR (name)", "London")]).map
        LocationEntry.geoCode = ["E12000007"]
    ∧ (get_locations [] [("GOR (code)", "Z"), ("GOR (name)", "X")]).map
        LocationEntry.geoCode = ["Z"] := by
  refine ⟨?_, rfl, rfl, rfl⟩
  intro A record f code hf hc hne
  have hcD : (slookup (f ++ " (code)") record).getD "" = code := by rw [hc]; rfl
  have hskip : ¬((slookup (f ++ " (name)") record).getD "" = ""
      ∧ (slookup (f ++ " (code)") record).getD "" = "") :=
    fun hcon => hne (hcD.symm.trans hcon.2)
  have htr : translated_code record f
      = (if f = "GOR" then (slookup code REGION_CONVERT).getD code else code) := by
    simp [translated_code, hc]
  have hterm : translated_code record f ≠ "" := by
    rw [htr]
    by_cases hg : f = "GOR"
    · rw [if_pos hg]
      cases hr : slookup code REGION_CONVERT with
      | none => simpa using hne
      | some v => simpa using REGION_CONVERT_values_ne_empty code v hr
    · simpa [hg] using hne
  have hfc : final_code record f = translated_code record f := by
    simp [final_code, hterm]
  rw [location_entry_eq, if_neg hskip]
  simp [hfc, htr]

/-- Witness for C3's universal part at a concrete field group and row. -/
theorem gor_region_translation_witness :
    (location_entry [] [("GOR (code)", "H")] "GOR").map LocationEntry.geoCode
      = some (if "GOR" = "GOR" then (slookup "H" REGION_CONVERT).getD "H" else "H") :=
  gor_region_translation.1 [] [("GOR (code)", "H")] "GOR" "H" (by decide) (by decide)
    (by decide)

/-- C4: every entry emitted by `get_locations` carries a `geoCodeType` equal
to the `AREA_TYPES` lookup of the first three characters of its (translated,
post-fallback) code when that prefix is present, and the field group's own
name otherwise (`Option.getD` encodes exactly this priority). -/
theorem geoCodeType_prefix_priority (A : List (String × String)) (record : RawRow)
    (e : LocationEntry) (he : e ∈ get_locations A record) :
    ∃ f, f ∈ location_fields ∧ location_entry A record f = some e ∧
      e.geoCodeType = (slookup (e.geoCode.take 3) A).getD f := by
  rw [get_locations_eq] at he
  rcases List.mem_filterMap.mp he with ⟨f, hf, hfe⟩
  rcases location_entry_some A record f e hfe with ⟨rfl, -⟩
  exact ⟨f, hf, hfe, rfl⟩

/-- Witness for C4 at a concrete row whose code prefix is in the table. -/
theorem geoCodeType_prefix_priority_witness :
    ∃ f, f ∈ location_fields
      ∧ location_entry [("E12", "Region")]
          [("GOR (code)", "H"), ("GOR (name)", "London")] f
          = some ⟨"E12000007", some "London", "E12000007", "Region"⟩
      ∧ LocationEntry.geoCodeType ⟨"E12000007", some "London", "E12000007", "Region"⟩
          = (slookup (String.take (LocationEntry.geoCode
              ⟨"E12000007", some "London", "E12000007", "Region"⟩) 3)
              [("E12", "Region")]).getD f :=
  geoCodeType_prefix_priority [("E12", "Region")]
    [("GOR (code)", "H"), ("GOR (name)", "London")]
    ⟨"E12000007", some "London", "E12000007", "Region"⟩ (by decide)

/-- C5: `get_locations` is exactly the per-group filter-map over the fixed
seven-group list — hence at most one entry per field group, in the
field-group order — with no more entries than groups, and a group whose
code and name sub-columns are both empty contributes no entry. -/
theorem locations_per_group (A : List (String × String)) (record : RawRow) :
    get_locations A record = location_fields.filterMap (location_entry A record)
    ∧ (get_locations A record).length ≤ location_fields.length
    ∧ ∀ f : String,
        (slookup (f ++ " (code)") record).getD "" = "" →
        (slookup (f ++ " (name)") record).getD "" = "" →
        location_entry A record f = none := by
  refine ⟨get_locations_eq A record, ?_, ?_⟩
  · rw [get_locations_eq]
    exact List.length_filterMap_le _ _
  · intro f hcode hname
    rw [location_entry_eq, if_pos ⟨hname, hcode⟩]

/-- Witness for C5's skip condition at a concrete row. -/
theorem locations_per_group_witness :
    location_entry [] [] "GOR" = none :=
  (locations_per_group [] []).2.2 "GOR" (by decide) (by decide)

/-- C6: for every entry emitted by `get_locations`, when the group's code
sub-column is empty (equivalently, empty after region translation, which
never maps a code to the empty string) but its name sub-column is non-empty,
both `id` and `geoCode` equal the name; and every emitted entry has a
non-empty `geoCode` whenever its name sub-column is non-empty. -/
theorem location_code_name_fallback (A : List (String × String)) (record : RawRow)
    (e : LocationEntry) (he : e ∈ get_locations A record) :
    ∃ f, f ∈ location_fields ∧ location_entry A record f = some e ∧
      ((slookup (f ++ " (code)") record).getD "" = "" →
        e.id = (slookup (f ++ " (name)") record).getD ""
        ∧ e.geoCode = (slookup (f ++ " (name)") record).getD "")
      ∧ ((slookup (f ++ " (name)") record).getD "" ≠ "" → e.geoCode ≠ "") := by
  rw [get_locations_eq] at he
  rcases List.mem_filterMap.mp he with ⟨f, hf, hfe⟩
  rcases location_entry_some A record f e hfe with ⟨rfl, -⟩
  refine ⟨f, hf, hfe, ?_, ?_⟩
  · intro hcode
    have ht : translated_code record f = "" := by
      simp only [translated_code, hcode]
      by_cases hg : f = "GOR"
      · subst hg
        decide
      · simp [hg]
    have hfc : final_code record f = (slookup (f ++ " (name)") record).getD "" := by
      simp [final_code, ht]
    exact ⟨hfc, hfc⟩
  · intro hname
    show final_code record f ≠ ""
    simp only [final_code]
    split_ifs with ht
    · exact hname
    · exact ht

/-- Witness for C6 at a concrete row with an empty code and non-empty name. -/
theorem location_code_name_fallback_witness :
    ∃ f, f ∈ location_fields
      ∧ location_entry [] [("MSOA (name)", "Somewhere")] f
          = some ⟨"Somewhere", some "Somewhere", "Somewhere", "MSOA"⟩
      ∧ ((slookup (f ++ " (code)") [("MSOA (name)", "Somewhere")]).getD "" = "" →
          LocationEntry.id ⟨"Somewhere", some "Somewhere", "Somewhere", "MSOA"⟩
            = (slookup (f ++ " (name)") [("MSOA (name)", "Somewhere")]).getD ""
          ∧ LocationEntry.geoCode ⟨"Somewhere", some "Somewhere", "Somewhere", "MSOA"⟩
            = (slookup (f ++ " (name)") [("MSOA (name)", "Somewhere")]).getD "")
      ∧ ((slookup (f ++ " (name)") [("MSOA (name)", "Somewhere")]).getD "" ≠ "" →
          LocationEntry.geoCode ⟨"Somewhere", some "Somewhere", "Somewhere", "MSOA"⟩ ≠ "") :=
  location_code_name_fallback [] [("MSOA (name)", "Somewhere")]
    ⟨"Somewhere", some "Somewhere", "Somewhere", "MSOA"⟩ (by decide)

/-- C9: a row whose cleaned form is missing the `URN` field entirely makes
`parse_row` surface a `MalformedRecord` error; a row whose `URN` is present
is normalized without error no matter which other fields are absent or
empty; and in a batch the error stays confined to the failing row (the other
rows' results are exactly their own `parse_row` results). -/
theorem urn_missing_malformed (ext : ExternalHelpers) (s : SpiderState) (record : RawRow) :
    (slookup "URN" (ext.clean_fields record) = none →
      parse_row ext s record = Except.error RowError.MalformedRecord)
    ∧ (∀ urn, slookup "URN" (ext.clean_fields record) = some urn →
        ∃ org, parse_row ext s record = Except.ok org)
    ∧ (∀ (pre post : List RawRow) (bad : RawRow),
        parse_batch ext s (pre ++ bad :: post)
          = parse_batch ext s pre ++ parse_row ext s bad :: parse_batch ext s post) := by
  refine ⟨?_, ?_, ?_⟩
  · intro h
    simp [parse_row, get_org_id, h]
  · intro urn h
    cases hpr : parse_row ext s record with
    | ok org => exact ⟨org, rfl⟩
    | error e =>
      simp [parse_row, get_org_id, get_org_ids, h] at hpr
  · intro pre post bad
    simp [parse_batch]

/-- Witness for C9: a row with no `URN` column errors, a row with only a
`URN` column succeeds (identity cleaning, empty auxiliary state). -/
theorem urn_missing_malformed_witness :
    parse_row ⟨fun r => r, fun o => o, fun o => o, "", []⟩ ⟨[], [], []⟩ []
        = Except.error RowError.MalformedRecord
    ∧ ∃ org, parse_row ⟨fun r => r, fun o => o, fun o => o, "", []⟩ ⟨[], [], []⟩
        [("URN", "1")] = Except.ok org :=
  ⟨(urn_missing_malformed ⟨fun r => r, fun o => o, fun o => o, "", []⟩
      ⟨[], [], []⟩ []).1 rfl,
   (urn_missing_malformed ⟨fun r => r, fun o => o, fun o => o, "", []⟩
      ⟨[], [], []⟩ [("URN", "1")]).2.1 "1" rfl⟩

/-- C10: `uni_lookup` inserts a mapping for every row of the university
table, including rows with an empty `CompanyNumber`; consequently a record
whose URN matches such a row gets the literal identifier `"GB-COH-"` with an
empty suffix instead of having the company identifier omitted. -/
theorem uni_lookup_inserts_unconditionally :
    (∀ (rows : List UniRow) (s : SpiderState) (r : UniRow), r ∈ rows →
        (slookup r.URN (uni_lookup rows s).unirc).isSome = true)
    ∧ get_org_ids (uni_lookup [UniRow.mk "100001" ""] ⟨[], [], []⟩)
        [("URN", "100001")]
        = Except.ok ["GB-EDU-100001", "GB-COH-"] := by
  constructor
  · intro rows s r hr
    simp only [uni_lookup]
    exact uni_fold_contains rows [] r (Or.inl hr)
  · rfl

/-- Witness for C10's universal part at a one-row table with an empty
company number. -/
theorem uni_lookup_inserts_unconditionally_witness :
    (slookup (UniRow.mk "100001" "").URN
      (uni_lookup [UniRow.mk "100001" ""] ⟨[], [], []⟩).unirc).isSome = true :=
  uni_lookup_inserts_unconditionally.1 [UniRow.mk "100001" ""] ⟨[], [], []⟩
    (UniRow.mk "100001" "") (by decide)
